import Mathlib

/-
Shallow embedding of the Pomodoro timer session engine implemented in
src/src/App.tsx.

The engine state is the tuple of React state variables that the timer logic
reads and writes: `mode`, `settings`, `timeLeft`, `isActive`, `soundEnabled`
(lines 174-180).  Theme and modal-visibility state is presentation only and
is not modelled.

The tick/completion effect (lines 213-226) installs a one-second interval
while `isActive && timeLeft > 0`; each interval firing decrements `timeLeft`
by one, the effect then re-runs, and if the new `timeLeft` is 0 the
completion branch runs: `setIsActive(false)` and `playNotificationSound()`.
A single delivered tick therefore performs the decrement and, when it
reaches zero, the completion transition; this is the `tick` function below,
which also reports whether the completion branch ran and with which audio
outcome.

The mode/settings reset effect (lines 228-231) has dependency array
`[mode, settings]`: it runs only when `mode` or `settings` actually changes
(React compares with Object.is and skips the update when the new value is
identical).  Selecting the already-active mode via `setMode` is therefore a
no-op, which `selectMode` reflects; saving settings always produces a fresh
object, so `applyConfig` always resets.

JS numbers holding whole-second counts are modelled as `Int`; the settings
normalization in `handleSave` (lines 452-459) uses `x || y`, which for the
values that can occur there (integers or the empty string) is `Option.getD`
on the operands and a zero test on the total.
-/

namespace Pomodoro

/-- The three timer modes (`type Mode`, App.tsx line 5). -/
inductive Mode
  | pomodoro
  | shortBreak
  | longBreak
  deriving DecidableEq, Repr

/-- Per-mode durations in seconds (`interface Settings`, lines 8-12). -/
structure Settings where
  pomodoro : Int
  shortBreak : Int
  longBreak : Int
  deriving DecidableEq, Repr

/-- Indexing `settings[mode]` as used throughout the component. -/
def Settings.get (c : Settings) : Mode → Int
  | Mode.pomodoro => c.pomodoro
  | Mode.shortBreak => c.shortBreak
  | Mode.longBreak => c.longBreak

/-- Built-in defaults (lines 14-18): Focus 25*60, ShortBreak 5*60, LongBreak 15*60. -/
def DEFAULT_SETTINGS : Settings :=
  { pomodoro := 25 * 60, shortBreak := 5 * 60, longBreak := 15 * 60 }

/-- The engine state: the React state variables the timer logic touches
(lines 174-180). -/
structure State where
  mode : Mode
  settings : Settings
  timeLeft : Int
  isActive : Bool
  soundEnabled : Bool
  deriving DecidableEq, Repr

/-- Initial state (lines 174-180): Focus mode, default settings,
`timeLeft = settings.pomodoro`, paused, sound on. -/
def initialState : State :=
  { mode := Mode.pomodoro, settings := DEFAULT_SETTINGS,
    timeLeft := DEFAULT_SETTINGS.pomodoro, isActive := false,
    soundEnabled := true }

/-- Outcome of one invocation of `playNotificationSound` (lines 188-211):
suppressed by the early return when sound is disabled, played when the audio
subsystem works, or the caught-and-logged error path of the try/catch. -/
inductive AudioResult
  | suppressed
  | played
  | loggedError
  deriving DecidableEq, Repr

/-- `playNotificationSound` (lines 188-211): returns immediately when
`soundEnabled` is false; otherwise attempts audio, catching any failure and
logging it.  `audioOk` models whether the audio subsystem works. -/
def playNotificationSound (soundEnabled audioOk : Bool) : AudioResult :=
  if !soundEnabled then AudioResult.suppressed
  else if audioOk then AudioResult.played
  else AudioResult.loggedError

/-- The completion branch of the tick effect (lines 218-222):
`setIsActive(false)` then `playNotificationSound()`. -/
def completionBranch (audioOk : Bool) (s : State) : State × AudioResult :=
  ({ s with isActive := false }, playNotificationSound s.soundEnabled audioOk)

/-- One delivered tick (lines 213-226).  The interval exists only while
`isActive && timeLeft > 0`; a firing decrements `timeLeft`, and the re-run
effect takes the completion branch when the result is 0.  The second
component is `some r` exactly when the completion branch ran, with `r` the
audio outcome. -/
def tick (audioOk : Bool) (s : State) : State × Option AudioResult :=
  if s.isActive = true ∧ 0 < s.timeLeft then
    let t := s.timeLeft - 1
    if t = 0 then
      let r := completionBranch audioOk { s with timeLeft := t }
      (r.1, some r.2)
    else ({ s with timeLeft := t }, none)
  else (s, none)

/-- The effect settling that follows a command: when a command leaves the
state with `isActive && timeLeft === 0`, the effect (lines 218-222) runs the
completion branch immediately, without any tick being delivered. -/
def settle (audioOk : Bool) (s : State) : State × Option AudioResult :=
  if s.isActive = true ∧ s.timeLeft = 0 then
    let r := completionBranch audioOk s
    (r.1, some r.2)
  else (s, none)

/-- `toggleTimer` (line 233): `setIsActive(!isActive)`, after which the
effects settle. -/
def toggleRun (audioOk : Bool) (s : State) : State × Option AudioResult :=
  settle audioOk { s with isActive := !s.isActive }

/-- `resetTimer` (lines 234-237): `setIsActive(false)`,
`setTimeLeft(settings[mode])`. -/
def resetTimer (s : State) : State :=
  { s with isActive := false, timeLeft := s.settings.get s.mode }

/-- Selecting a mode (line 288 `setMode(m)` plus the reset effect at lines
228-231).  The effect has dependency array `[mode, settings]`, so it re-runs
only when the mode actually changes; `setMode` with the current mode is a
React no-op. -/
def selectMode (m : Mode) (s : State) : State :=
  if m = s.mode then s
  else { s with mode := m, timeLeft := s.settings.get m, isActive := false }

/-- `handleSaveSettings` (lines 245-248) plus the reset effect (lines
228-231).  The saved settings object is always freshly constructed in
`handleSave`, so the `settings` dependency always changes and the effect
always resets the active mode and stops the timer. -/
def applyConfig (c : Settings) (s : State) : State :=
  { s with settings := c, timeLeft := c.get s.mode, isActive := false }

/-- The derived progress fraction (line 250):
`1 - timeLeft / settings[mode]`, with no guard for a zero denominator.  A
zero denominator makes the JS expression evaluate to NaN or negative
Infinity (a non-finite number), modelled as `none`. -/
def jsProgress (s : State) : Option ℚ :=
  if s.settings.get s.mode = 0 then none
  else some (1 - (s.timeLeft : ℚ) / ((s.settings.get s.mode : Int) : ℚ))

/-- One field of the settings modal's local state: a non-negative integer or
the empty string (lines 431-435, 444-449), the latter modelled as `none`. -/
def FieldOk (o : Option Int) : Prop := 0 ≤ o.getD 0

/-- `handleChange` (lines 437-450) for one field: a parsed non-negative
number is stored; a negative (or unparseable) value leaves the previous
field value in place; an empty input stores the empty string. -/
def handleChange (prev : Option Int) (raw : Option Int) : Option Int :=
  match raw with
  | some n => if 0 ≤ n then some n else prev
  | none => none

/-- One mode's line of `handleSave` (lines 452-459):
`((m || 0) * 60) + (s || 0) || fallback`.  For the values a field can hold
(an integer or the empty string) `x || 0` is `Option.getD x 0`, and
`total || fallback` substitutes the fallback exactly when the total is 0. -/
def saveTotal (m s : Option Int) (fb : Int) : Int :=
  let t := m.getD 0 * 60 + s.getD 0
  if t = 0 then fb else t

/-- The local per-mode minute/second pair of the settings modal. -/
structure LocalModeSettings where
  m : Option Int
  s : Option Int
  deriving DecidableEq, Repr

/-- The settings modal's local state (lines 431-435). -/
structure LocalSettings where
  pomodoro : LocalModeSettings
  shortBreak : LocalModeSettings
  longBreak : LocalModeSettings
  deriving DecidableEq, Repr

/-- `handleSave` (lines 452-459): normalize all three modes, each falling
back to its own built-in default. -/
def handleSave (ls : LocalSettings) : Settings :=
  { pomodoro := saveTotal ls.pomodoro.m ls.pomodoro.s DEFAULT_SETTINGS.pomodoro,
    shortBreak := saveTotal ls.shortBreak.m ls.shortBreak.s DEFAULT_SETTINGS.shortBreak,
    longBreak := saveTotal ls.longBreak.m ls.longBreak.s DEFAULT_SETTINGS.longBreak }

/-- All six fields of the modal's local state are admissible, which
`handleChange` maintains from the initial numeric values. -/
def FieldsOk (ls : LocalSettings) : Prop :=
  FieldOk ls.pomodoro.m ∧ FieldOk ls.pomodoro.s ∧
  FieldOk ls.shortBreak.m ∧ FieldOk ls.shortBreak.s ∧
  FieldOk ls.longBreak.m ∧ FieldOk ls.longBreak.s

/-- A configuration whose three values are non-negative, as the data model
requires of `DurationConfig`. -/
def ConfigOk (c : Settings) : Prop :=
  0 ≤ c.pomodoro ∧ 0 ≤ c.shortBreak ∧ 0 ≤ c.longBreak

/-- States reachable from the initial state by the engine commands.
`applyConfig` is only ever invoked with a configuration produced by
`handleSave`, whose values are non-negative; the step requires only that. -/
inductive Reachable : State → Prop
  | init : Reachable initialState
  | step_tick (ok : Bool) (s : State) : Reachable s → Reachable (tick ok s).1
  | step_toggle (ok : Bool) (s : State) : Reachable s → Reachable (toggleRun ok s).1
  | step_reset (s : State) : Reachable s → Reachable (resetTimer s)
  | step_select (m : Mode) (s : State) : Reachable s → Reachable (selectMode m s)
  | step_config (c : Settings) (s : State) :
      ConfigOk c → Reachable s → Reachable (applyConfig c s)

/-- The engine invariant: valid configuration and remaining time within
`[0, settings[mode]]`. -/
def Inv (s : State) : Prop :=
  ConfigOk s.settings ∧ 0 ≤ s.timeLeft ∧ s.timeLeft ≤ s.settings.get s.mode

lemma configOk_get {c : Settings} (h : ConfigOk c) (m : Mode) : 0 ≤ c.get m := by
  rcases h with ⟨h1, h2, h3⟩
  cases m
  · exact h1
  · exact h2
  · exact h3

lemma tick_fst (ok : Bool) (s : State) :
    (tick ok s).1 =
      if s.isActive = true ∧ 0 < s.timeLeft then
        if s.timeLeft - 1 = 0 then
          { s with timeLeft := s.timeLeft - 1, isActive := false }
        else
          { s with timeLeft := s.timeLeft - 1 }
      else s := by
  simp only [tick, completionBranch]
  split
  · split <;> rfl
  · rfl

lemma tick_snd (ok : Bool) (s : State) :
    (tick ok s).2 =
      if s.isActive = true ∧ 0 < s.timeLeft then
        if s.timeLeft - 1 = 0 then
          some (playNotificationSound s.soundEnabled ok)
        else none
      else none := by
  simp only [tick, completionBranch]
  split
  · split <;> rfl
  · rfl

lemma settle_fst (ok : Bool) (s : State) :
    (settle ok s).1 =
      if s.isActive = true ∧ s.timeLeft = 0 then { s with isActive := false }
      else s := by
  simp only [settle, completionBranch]
  split <;> rfl

lemma settle_snd (ok : Bool) (s : State) :
    (settle ok s).2 =
      if s.isActive = true ∧ s.timeLeft = 0 then
        some (playNotificationSound s.soundEnabled ok)
      else none := by
  simp only [settle, completionBranch]
  split <;> rfl

lemma toggleRun_fst_fields (ok : Bool) (s : State) :
    (toggleRun ok s).1.timeLeft = s.timeLeft ∧
    (toggleRun ok s).1.settings = s.settings ∧
    (toggleRun ok s).1.mode = s.mode := by
  unfold toggleRun
  rw [settle_fst]
  split <;> exact ⟨rfl, rfl, rfl⟩

lemma inv_aux {s : State} (h : Reachable s) : Inv s := by
  induction h with
  | init =>
      refine ⟨⟨?_, ?_, ?_⟩, ?_, ?_⟩ <;> decide
  | step_tick ok s h ih =>
      rcases ih with ⟨hc, h0, h1⟩
      rw [Inv, tick_fst]
      split
      · next hg =>
          obtain ⟨hA, hpos⟩ := hg
          split <;> exact ⟨hc, by dsimp only; omega, by dsimp only; omega⟩
      · exact ⟨hc, h0, h1⟩
  | step_toggle ok s h ih =>
      rcases ih with ⟨hc, h0, h1⟩
      rcases toggleRun_fst_fields ok s with ⟨ht, hs, hm⟩
      rw [Inv, ht, hs, hm]
      exact ⟨hc, h0, h1⟩
  | step_reset s h ih =>
      rcases ih with ⟨hc, h0, h1⟩
      exact ⟨hc, configOk_get hc _, le_refl _⟩
  | step_select m s h ih =>
      rcases ih with ⟨hc, h0, h1⟩
      rw [Inv, selectMode]
      split
      · exact ⟨hc, h0, h1⟩
      · exact ⟨hc, configOk_get hc _, le_refl _⟩
  | step_config c s hco h ih =>
      rcases ih with ⟨hc, h0, h1⟩
      exact ⟨hco, configOk_get hco _, le_refl _⟩

/-- C2: in every state reachable from the initial state by any sequence of
the engine commands (selectMode, toggleRun, reset, tick, applyConfig with a
non-negative configuration), the remaining time satisfies
`0 ≤ timeLeft ≤ settings[mode]`. -/
theorem reachable_timeLeft_bounds (s : State) (h : Reachable s) :
    0 ≤ s.timeLeft ∧ s.timeLeft ≤ s.settings.get s.mode :=
  (inv_aux h).2

/-- Witness for C2 at the initial state. -/
theorem reachable_timeLeft_bounds_witness :
    Reachable initialState ∧
    (0 ≤ initialState.timeLeft ∧
      initialState.timeLeft ≤ initialState.settings.get initialState.mode) :=
  ⟨Reachable.init, reachable_timeLeft_bounds initialState Reachable.init⟩

/-- C1: for every running state, a tick on positive remaining time
decrements it by exactly one and never below zero; the tick that brings it
to zero clears `isActive` and runs the completion branch exactly once for
that zero-crossing (a further tick neither fires it again nor changes the
remaining time); a tick before the zero-crossing does not fire it. -/
theorem tick_running_behavior (ok : Bool) (s : State) (h : s.isActive = true) :
    (0 < s.timeLeft →
      (tick ok s).1.timeLeft = s.timeLeft - 1 ∧ 0 ≤ (tick ok s).1.timeLeft) ∧
    (1 < s.timeLeft → (tick ok s).1.isActive = true ∧ (tick ok s).2 = none) ∧
    (s.timeLeft = 1 →
      (tick ok s).1.isActive = false ∧ (tick ok s).2.isSome = true ∧
      (tick ok (tick ok s).1).2 = none ∧
      (tick ok (tick ok s).1).1.timeLeft = 0) := by
  refine ⟨?_, ?_, ?_⟩
  · intro hpos
    rw [tick_fst, if_pos ⟨h, hpos⟩]
    split <;> dsimp only <;> omega
  · intro hpos
    have h1 : (tick ok s).1 = { s with timeLeft := s.timeLeft - 1 } := by
      rw [tick_fst, if_pos ⟨h, by omega⟩, if_neg (by omega)]
    constructor
    · rw [h1]; exact h
    · rw [tick_snd, if_pos ⟨h, by omega⟩, if_neg (by omega)]
  · intro hone
    have h1 : (tick ok s).1 =
        { s with timeLeft := s.timeLeft - 1, isActive := false } := by
      rw [tick_fst, if_pos ⟨h, by omega⟩, if_pos (by omega)]
    have hA : (tick ok s).1.isActive = false := by rw [h1]
    have h2 : (tick ok s).2.isSome = true := by
      rw [tick_snd, if_pos ⟨h, by omega⟩, if_pos (by omega)]
      rfl
    have hguard : ¬ ((tick ok s).1.isActive = true ∧ 0 < (tick ok s).1.timeLeft) := by
      rw [hA]; simp
    have h3 : (tick ok (tick ok s).1).2 = none := by
      rw [tick_snd, if_neg hguard]
    have h4 : (tick ok (tick ok s).1).1 = (tick ok s).1 := by
      rw [tick_fst, if_neg hguard]
    refine ⟨hA, h2, h3, ?_⟩
    rw [h4, h1]
    dsimp only
    omega

/-- Witness state for C1: running Focus session with one second left. -/
def lastSecondState : State :=
  { mode := Mode.pomodoro, settings := DEFAULT_SETTINGS, timeLeft := 1,
    isActive := true, soundEnabled := true }

/-- Witness for C1 at a running state with one second remaining. -/
theorem tick_running_behavior_witness :
    lastSecondState.isActive = true ∧
    ((0 < lastSecondState.timeLeft →
      (tick true lastSecondState).1.timeLeft = lastSecondState.timeLeft - 1 ∧
      0 ≤ (tick true lastSecondState).1.timeLeft) ∧
    (1 < lastSecondState.timeLeft →
      (tick true lastSecondState).1.isActive = true ∧
      (tick true lastSecondState).2 = none) ∧
    (lastSecondState.timeLeft = 1 →
      (tick true lastSecondState).1.isActive = false ∧
      (tick true lastSecondState).2.isSome = true ∧
      (tick true (tick true lastSecondState).1).2 = none ∧
      (tick true (tick true lastSecondState).1).1.timeLeft = 0)) :=
  ⟨rfl, tick_running_behavior true lastSecondState rfl⟩

/-- C6: for every state, running or not, and every new configuration,
`applyConfig` replaces the whole configuration and then resets the active
mode: remaining time becomes the new duration of the active mode and the
timer is stopped, the active mode itself being kept. -/
theorem applyConfig_replaces_and_resets (c : Settings) (s : State) :
    (applyConfig c s).settings = c ∧
    (applyConfig c s).timeLeft = c.get s.mode ∧
    (applyConfig c s).isActive = false ∧
    (applyConfig c s).mode = s.mode :=
  ⟨rfl, rfl, rfl, rfl⟩

/-- A mid-countdown running Focus state used on claims about selecting
the already-active mode. -/
def staleFocusState : State :=
  { mode := Mode.pomodoro, settings := DEFAULT_SETTINGS, timeLeft := 100,
    isActive := true, soundEnabled := true }

/-- C7 counterexample: selecting the already-active mode does not reset the
session.  The reset effect is keyed on `[mode, settings]` and `setMode` with
the current mode is a no-op, so on a running Focus session with 100 seconds
left, `selectMode Focus` leaves `timeLeft = 100` (not 1500) and
`isActive = true`. -/
theorem selectMode_same_mode_counterexample :
    ¬ ((selectMode Mode.pomodoro staleFocusState).mode = Mode.pomodoro ∧
       (selectMode Mode.pomodoro staleFocusState).timeLeft =
         staleFocusState.settings.get Mode.pomodoro ∧
       (selectMode Mode.pomodoro staleFocusState).isActive = false) := by
  decide

/-- C7 amended: for every mode other than the currently active one, after
`selectMode m` the state has `mode = m`, `timeLeft = settings[m]` and
`isActive = false`; selecting the already-active mode is a no-op. -/
theorem selectMode_new_mode (m : Mode) (s : State) (h : m ≠ s.mode) :
    (selectMode m s).mode = m ∧
    (selectMode m s).timeLeft = s.settings.get m ∧
    (selectMode m s).isActive = false := by
  rw [selectMode, if_neg h]
  exact ⟨rfl, rfl, rfl⟩

/-- Witness for the amended C7: switching the running Focus state to the
short break. -/
theorem selectMode_new_mode_witness :
    Mode.shortBreak ≠ staleFocusState.mode ∧
    ((selectMode Mode.shortBreak staleFocusState).mode = Mode.shortBreak ∧
     (selectMode Mode.shortBreak staleFocusState).timeLeft =
       staleFocusState.settings.get Mode.shortBreak ∧
     (selectMode Mode.shortBreak staleFocusState).isActive = false) :=
  ⟨by decide, selectMode_new_mode Mode.shortBreak staleFocusState (by decide)⟩

/-- C8: `resetTimer` is idempotent — applying it twice equals applying it
once — and one application sets `timeLeft = settings[mode]`,
`isActive = false`, keeping the active mode. -/
theorem resetTimer_idempotent (s : State) :
    resetTimer (resetTimer s) = resetTimer s ∧
    (resetTimer s).mode = s.mode ∧
    (resetTimer s).timeLeft = s.settings.get s.mode ∧
    (resetTimer s).isActive = false :=
  ⟨rfl, rfl, rfl, rfl⟩

/-- C3 counterexample: the normalization performs no clamping.  The
`handleSave` expression applied to minutes -5 and seconds 10 evaluates to
-290 (the raw total, which is nonzero hence kept), not to
`max 0 (-5) * 60 + max 0 10 = 10` as the claim states. -/
theorem saveTotal_negative_counterexample :
    saveTotal (some (-5)) (some 10) DEFAULT_SETTINGS.pomodoro = -290 ∧
    saveTotal (some (-5)) (some 10) DEFAULT_SETTINGS.pomodoro ≠
      max 0 (-5) * 60 + max 0 10 := by
  decide

/-- C3 amended: `handleSave` itself never clamps — negative values are kept
out upstream by `handleChange`, which ignores a negative edit and keeps the
previous field value.  For the non-negative inputs `handleChange` admits,
whenever the total is positive the saved value equals
`max(0, m) * 60 + max(0, s)` (trivially, since the operands are already
non-negative). -/
theorem saveTotal_nonneg_no_clamp (m s : Option Int) (fb : Int)
    (prev : Option Int) (n : Int) (hm : 0 ≤ m.getD 0) (hs : 0 ≤ s.getD 0)
    (hpos : 0 < m.getD 0 * 60 + s.getD 0) (hn : n < 0) :
    saveTotal m s fb = max 0 (m.getD 0) * 60 + max 0 (s.getD 0) ∧
    handleChange prev (some n) = prev := by
  constructor
  · simp only [saveTotal]
    rw [if_neg (by omega), max_eq_right hm, max_eq_right hs]
  · simp only [handleChange]
    rw [if_neg (by omega)]

/-- Witness for the amended C3: 25 minutes, 0 seconds, short-break fallback,
and a rejected edit of -5 on a field previously holding 7. -/
theorem saveTotal_nonneg_no_clamp_witness :
    (0 ≤ (some (25 : Int)).getD 0 ∧ 0 ≤ (some (0 : Int)).getD 0 ∧
      0 < (some (25 : Int)).getD 0 * 60 + (some (0 : Int)).getD 0 ∧
      (-5 : Int) < 0) ∧
    (saveTotal (some 25) (some 0) DEFAULT_SETTINGS.shortBreak =
        max 0 ((some (25 : Int)).getD 0) * 60 + max 0 ((some (0 : Int)).getD 0) ∧
      handleChange (some 7) (some (-5)) = some 7) :=
  ⟨by decide,
   saveTotal_nonneg_no_clamp (some 25) (some 0) DEFAULT_SETTINGS.shortBreak
     (some 7) (-5) (by decide) (by decide) (by decide) (by decide)⟩

/-- A state whose active mode has a configured duration of zero, the case
the claim says the progress computation guards against. -/
def zeroDenomState : State :=
  { mode := Mode.pomodoro,
    settings := { pomodoro := 0, shortBreak := 300, longBreak := 900 },
    timeLeft := 0, isActive := false, soundEnabled := true }

/-- C4 counterexample: line 250 computes `1 - timeLeft / settings[mode]`
with no special case for a zero denominator; on a state whose active-mode
duration is 0 the JS expression is non-finite (NaN), modelled `none` — it is
not defined as 0. -/
theorem progress_zero_denominator_counterexample :
    jsProgress zeroDenomState = none ∧ jsProgress zeroDenomState ≠ some 0 := by
  decide

/-- C4 amended: progress equals `1 - remaining / duration`, and whenever the
active-mode duration is positive and the remaining time lies within
`[0, duration]` — which holds in every reachable state, all persisted
durations being at least 1 — the value lies in `[0, 1]`.  The code contains
no clause defining progress as 0 on a zero duration; that case is
unreachable rather than guarded. -/
theorem jsProgress_defined_in_unit_interval (s : State)
    (hd : 0 < s.settings.get s.mode) (h0 : 0 ≤ s.timeLeft)
    (h1 : s.timeLeft ≤ s.settings.get s.mode) :
    jsProgress s =
      some (1 - (s.timeLeft : ℚ) / ((s.settings.get s.mode : Int) : ℚ)) ∧
    0 ≤ 1 - (s.timeLeft : ℚ) / ((s.settings.get s.mode : Int) : ℚ) ∧
    1 - (s.timeLeft : ℚ) / ((s.settings.get s.mode : Int) : ℚ) ≤ 1 := by
  have hd' : (0 : ℚ) < ((s.settings.get s.mode : Int) : ℚ) := by exact_mod_cast hd
  have ht0 : (0 : ℚ) ≤ (s.timeLeft : ℚ) := by exact_mod_cast h0
  have ht1 : (s.timeLeft : ℚ) ≤ ((s.settings.get s.mode : Int) : ℚ) := by
    exact_mod_cast h1
  have hq1 : (s.timeLeft : ℚ) / ((s.settings.get s.mode : Int) : ℚ) ≤ 1 :=
    (div_le_one hd').mpr ht1
  have hq0 : 0 ≤ (s.timeLeft : ℚ) / ((s.settings.get s.mode : Int) : ℚ) :=
    div_nonneg ht0 hd'.le
  refine ⟨?_, by linarith, by linarith⟩
  rw [jsProgress, if_neg (by omega)]

/-- Witness for the amended C4 at the initial state: duration 1500,
remaining 1500, progress 0. -/
theorem jsProgress_defined_in_unit_interval_witness :
    (0 < initialState.settings.get initialState.mode ∧
      0 ≤ initialState.timeLeft ∧
      initialState.timeLeft ≤ initialState.settings.get initialState.mode) ∧
    (jsProgress initialState =
        some (1 - (initialState.timeLeft : ℚ) /
          ((initialState.settings.get initialState.mode : Int) : ℚ)) ∧
      0 ≤ 1 - (initialState.timeLeft : ℚ) /
          ((initialState.settings.get initialState.mode : Int) : ℚ) ∧
      1 - (initialState.timeLeft : ℚ) /
          ((initialState.settings.get initialState.mode : Int) : ℚ) ≤ 1) :=
  ⟨by decide,
   jsProgress_defined_in_unit_interval initialState (by decide) (by decide)
     (by decide)⟩

lemma saveTotal_spec (m s : Option Int) (fb : Int)
    (hm : FieldOk m) (hs : FieldOk s) (hfb : 1 ≤ fb) :
    (m.getD 0 * 60 + s.getD 0 = 0 → saveTotal m s fb = fb) ∧
    1 ≤ saveTotal m s fb := by
  rw [FieldOk] at hm hs
  simp only [saveTotal]
  refine ⟨fun h0 => by rw [if_pos h0], ?_⟩
  split
  · exact hfb
  · next hne => omega

/-- C5: with admissible modal fields (non-negative or empty, as
`handleChange` maintains), a mode whose entered total is 0 is saved as that
mode's built-in default (Focus 1500, ShortBreak 300, LongBreak 900), and
every saved value is at least 1.  `handleSave` is total: the zero entry is
silently replaced, never surfaced as an error. -/
theorem handleSave_zero_fallback (ls : LocalSettings) (h : FieldsOk ls) :
    (ls.pomodoro.m.getD 0 * 60 + ls.pomodoro.s.getD 0 = 0 →
      (handleSave ls).pomodoro = 1500) ∧
    (ls.shortBreak.m.getD 0 * 60 + ls.shortBreak.s.getD 0 = 0 →
      (handleSave ls).shortBreak = 300) ∧
    (ls.longBreak.m.getD 0 * 60 + ls.longBreak.s.getD 0 = 0 →
      (handleSave ls).longBreak = 900) ∧
    1 ≤ (handleSave ls).pomodoro ∧ 1 ≤ (handleSave ls).shortBreak ∧
    1 ≤ (handleSave ls).longBreak := by
  rw [FieldsOk] at h
  obtain ⟨h1, h2, h3, h4, h5, h6⟩ := h
  have p1 := saveTotal_spec ls.pomodoro.m ls.pomodoro.s
    DEFAULT_SETTINGS.pomodoro h1 h2 (by decide)
  have p2 := saveTotal_spec ls.shortBreak.m ls.shortBreak.s
    DEFAULT_SETTINGS.shortBreak h3 h4 (by decide)
  have p3 := saveTotal_spec ls.longBreak.m ls.longBreak.s
    DEFAULT_SETTINGS.longBreak h5 h6 (by decide)
  exact ⟨p1.1, p2.1, p3.1, p1.2, p2.2, p3.2⟩

/-- Modal state with every field empty, so every total is 0. -/
def emptyLocalSettings : LocalSettings :=
  { pomodoro := { m := none, s := none },
    shortBreak := { m := none, s := none },
    longBreak := { m := none, s := none } }

/-- Witness for C5: with all fields empty, each mode is saved at its
default. -/
theorem handleSave_zero_fallback_witness :
    FieldsOk emptyLocalSettings ∧
    ((emptyLocalSettings.pomodoro.m.getD 0 * 60 +
        emptyLocalSettings.pomodoro.s.getD 0 = 0 →
      (handleSave emptyLocalSettings).pomodoro = 1500) ∧
    (emptyLocalSettings.shortBreak.m.getD 0 * 60 +
        emptyLocalSettings.shortBreak.s.getD 0 = 0 →
      (handleSave emptyLocalSettings).shortBreak = 300) ∧
    (emptyLocalSettings.longBreak.m.getD 0 * 60 +
        emptyLocalSettings.longBreak.s.getD 0 = 0 →
      (handleSave emptyLocalSettings).longBreak = 900) ∧
    1 ≤ (handleSave emptyLocalSettings).pomodoro ∧
    1 ≤ (handleSave emptyLocalSettings).shortBreak ∧
    1 ≤ (handleSave emptyLocalSettings).longBreak) :=
  ⟨⟨le_refl 0, le_refl 0, le_refl 0, le_refl 0, le_refl 0, le_refl 0⟩,
   handleSave_zero_fallback emptyLocalSettings
     ⟨le_refl 0, le_refl 0, le_refl 0, le_refl 0, le_refl 0, le_refl 0⟩⟩

/-- C9: on the tick that completes a running session, the early return of
`playNotificationSound` suppresses all audio when sound is disabled while
the completion transition (isActive cleared, completion branch run) still
happens; an audio failure is caught and logged (`loggedError`), and the
resulting session state is identical whether audio succeeds or fails. -/
theorem completion_sound_contract (ok : Bool) (s : State)
    (ha : s.isActive = true) (h1 : s.timeLeft = 1) :
    (s.soundEnabled = false → (tick ok s).2 = some AudioResult.suppressed) ∧
    (tick ok s).1.isActive = false ∧
    (tick ok s).2.isSome = true ∧
    (tick false s).1 = (tick true s).1 ∧
    (s.soundEnabled = true → (tick false s).2 = some AudioResult.loggedError) := by
  have hg : s.isActive = true ∧ 0 < s.timeLeft := ⟨ha, by omega⟩
  have hz : s.timeLeft - 1 = 0 := by omega
  refine ⟨?_, ?_, ?_, ?_, ?_⟩
  · intro hsnd
    rw [tick_snd, if_pos hg, if_pos hz, hsnd]
    rfl
  · rw [tick_fst, if_pos hg, if_pos hz]
  · rw [tick_snd, if_pos hg, if_pos hz]
    rfl
  · rw [tick_fst, tick_fst]
  · intro hsnd
    rw [tick_snd, if_pos hg, if_pos hz, hsnd]
    rfl

/-- Witness state for C9: running, one second left, sound disabled. -/
def mutedLastSecondState : State :=
  { mode := Mode.pomodoro, settings := DEFAULT_SETTINGS, timeLeft := 1,
    isActive := true, soundEnabled := false }

/-- Witness for C9: completing with sound disabled records no audio but the
completion transition still happens. -/
theorem completion_sound_contract_witness :
    (mutedLastSecondState.isActive = true ∧ mutedLastSecondState.timeLeft = 1) ∧
    ((mutedLastSecondState.soundEnabled = false →
        (tick true mutedLastSecondState).2 = some AudioResult.suppressed) ∧
      (tick true mutedLastSecondState).1.isActive = false ∧
      (tick true mutedLastSecondState).2.isSome = true ∧
      (tick false mutedLastSecondState).1 = (tick true mutedLastSecondState).1 ∧
      (mutedLastSecondState.soundEnabled = true →
        (tick false mutedLastSecondState).2 = some AudioResult.loggedError)) :=
  ⟨⟨rfl, rfl⟩, completion_sound_contract true mutedLastSecondState rfl rfl⟩

/-- C10: toggling the timer on at zero remaining time is permitted — the
intermediate state has `isActive = true` — and the effects then settle
immediately, without any tick: `isActive` goes back to false, the
completion branch runs once, the remaining time stays 0, and a subsequent
tick neither fires the completion branch again nor changes the state, so
the running-at-zero state is never observable once the command settles. -/
theorem toggleRun_at_zero (ok : Bool) (s : State)
    (h0 : s.timeLeft = 0) (ha : s.isActive = false) :
    ({ s with isActive := !s.isActive }).isActive = true ∧
    (toggleRun ok s).1.isActive = false ∧
    (toggleRun ok s).2.isSome = true ∧
    (toggleRun ok s).1.timeLeft = 0 ∧
    (tick ok (toggleRun ok s).1).2 = none ∧
    (tick ok (toggleRun ok s).1).1 = (toggleRun ok s).1 := by
  have hi : ({ s with isActive := !s.isActive }).isActive = true := by
    simp [ha]
  have hg : ({ s with isActive := !s.isActive }).isActive = true ∧
      ({ s with isActive := !s.isActive }).timeLeft = 0 := ⟨hi, h0⟩
  have f1 : (toggleRun ok s).1 = { s with isActive := false } := by
    rw [toggleRun, settle_fst, if_pos hg]
  have f2 : (toggleRun ok s).2.isSome = true := by
    rw [toggleRun, settle_snd, if_pos hg]
    rfl
  have hng : ¬ (({ s with isActive := false } : State).isActive = true ∧
      0 < ({ s with isActive := false } : State).timeLeft) := by
    simp
  refine ⟨hi, by rw [f1], f2, by rw [f1]; exact h0, ?_, ?_⟩
  · rw [f1, tick_snd, if_neg hng]
  · rw [f1, tick_fst, if_neg hng]

/-- A finished session: zero seconds left, paused. -/
def finishedState : State :=
  { mode := Mode.pomodoro, settings := DEFAULT_SETTINGS, timeLeft := 0,
    isActive := false, soundEnabled := true }

/-- Witness for C10 at a finished Focus session. -/
theorem toggleRun_at_zero_witness :
    (finishedState.timeLeft = 0 ∧ finishedState.isActive = false) ∧
    (({ finishedState with isActive := !finishedState.isActive }).isActive = true ∧
      (toggleRun true finishedState).1.isActive = false ∧
      (toggleRun true finishedState).2.isSome = true ∧
      (toggleRun true finishedState).1.timeLeft = 0 ∧
      (tick true (toggleRun true finishedState).1).2 = none ∧
      (tick true (toggleRun true finishedState).1).1 =
        (toggleRun true finishedState).1) :=
  ⟨⟨rfl, rfl⟩, toggleRun_at_zero true finishedState rfl rfl⟩

end Pomodoro
